import Mathlib

/-!
Verification development for the airport ride pooling backend.

The development shallowly embeds the matching engine
(`services/matchingEngine.js`, current revision with the kilometre-based
detour check, the longitude fast path and the fallback branch), the pricing
service (`services/pricingService.js`), the booking controller
(`controllers/rideController.js`) and the active-ride store semantics induced
by the `ActiveRide` schema (unique partial index on `cabId` scoped to
`status: 'active'`, plus the primary-key index on `_id`).

Numbers are embedded as rationals.  The geometric primitive
`calculateDistance` of the source is the haversine formula evaluated with
IEEE-double trigonometry; that transcendental function does not translate to
an executable shallow embedding, so every function that consumes it takes the
point-to-point distance as an explicit functional parameter `dist`.  All
structural logic of the engine (seat and luggage checks, the detour check,
greedy route construction, scoring, candidate selection, fallback) is
embedded verbatim from the source on top of that parameter, and concrete
evaluations instantiate `dist` with an executable metric.
-/

namespace RidePooling

/-- One GeoJSON position, stored in the source as `[longitude, latitude]`. -/
structure Point where
  lon : ℚ
  lat : ℚ
  deriving DecidableEq, Repr

/-- Ride request fields used by the engine and the controller
(`models/RideRequest.js`): requester, pickup, dropoff, detour tolerance in
minutes (default 5), luggage count. -/
structure RideRequest where
  userId : ℕ
  pickupLocation : Point
  dropoffLocation : Point
  detourTolerance : ℚ
  luggageCount : ℕ
  deriving DecidableEq, Repr

/-- Passenger sub-record embedded in an active ride
(`models/ActiveRide.js`): the schema stores only requester, pickup, dropoff
and luggage count.  The matching engine nevertheless reads a
`detourTolerance` property off the sub-record, so the field is modelled as an
`Option` that is `none` for every passenger the controller ever stores. -/
structure Passenger where
  userId : ℕ
  pickupLocation : Point
  dropoffLocation : Point
  luggageCount : ℕ
  detourTolerance : Option ℚ := none
  deriving DecidableEq, Repr

/-- Status values of an active ride (`models/ActiveRide.js`). -/
inductive RideStatus where
  | active
  | completed
  | cancelled
  deriving DecidableEq, Repr

/-- Active ride record (`models/ActiveRide.js`). -/
structure ActiveRide where
  id : ℕ
  cabId : ℕ
  passengers : List Passenger
  currentRoute : List Point
  status : RideStatus
  totalPrice : ℚ
  deriving DecidableEq, Repr

/-- Vehicle record fields consumed by the engine (`models/Cab.js`). -/
structure Cab where
  id : ℕ
  capacity : ℕ
  currentLocation : Point
  deriving DecidableEq, Repr

/-- One row of the `$geoNear`/`$lookup` aggregation feeding `findBestMatch`:
a nearby cab together with its (optional) joined active ride. -/
structure CabData where
  cab : Cab
  activeRide : Option ActiveRide
  deriving DecidableEq, Repr

/-- JavaScript `x || d` applied to a possibly-absent numeric property: an
absent property and the number `0` are both falsy and yield the default. -/
def jsOrOpt (x : Option ℚ) (d : ℚ) : ℚ :=
  match x with
  | none => d
  | some v => if v = 0 then d else v

/-- JavaScript `x || d` applied to a present number: `0` is falsy. -/
def jsOrNum (x d : ℚ) : ℚ :=
  if x = 0 then d else x

/-- Embedding of `calculateRouteDistance`: the sum of consecutive pairwise
distances along a route; sequences shorter than two points have length 0. -/
def calculateRouteDistance (dist : Point → Point → ℚ) : List Point → ℚ
  | [] => 0
  | [_] => 0
  | a :: b :: rest => dist a b + calculateRouteDistance dist (b :: rest)

/-- Embedding of `checkDetourTolerance`.  The fast path compares only the
longitude components (`coordinates[0]`) of the pickup and dropoff pairs;
otherwise the extra kilometres of the new route over the original route are
compared against the existing passenger's tolerance (absent or zero tolerance
falls back to 5 minutes through `||`), converted at 40 km/h. -/
def checkDetourTolerance (dist : Point → Point → ℚ) (passenger : Passenger)
    (newRequest : RideRequest) (originalRoute newRoute : List Point) : Bool :=
  if passenger.pickupLocation.lon = newRequest.pickupLocation.lon ∧
      passenger.dropoffLocation.lon = newRequest.dropoffLocation.lon then
    true
  else
    let originalDistance := calculateRouteDistance dist originalRoute
    let newDistance := calculateRouteDistance dist newRoute
    let extraKm := newDistance - originalDistance
    let maxDetourKm := jsOrOpt passenger.detourTolerance 5 / 60 * 40
    decide (extraKm ≤ maxDetourKm)

/-- Embedding of `checkLuggageConstraint`: current luggage plus the new
passenger's luggage must not exceed the cab capacity. -/
def checkLuggageConstraint (passengers : List Passenger) (newLuggageCount : ℕ)
    (cabCapacity : ℕ) : Bool :=
  let currentLuggage := passengers.foldl (fun total p => total + p.luggageCount) 0
  decide (currentLuggage + newLuggageCount ≤ cabCapacity)

/-- Inner scan of `createOptimalRoute`: index of the first remaining point at
strictly minimal distance from the last visited point. -/
def nearestScan (dist : Point → Point → ℚ) (last : Point) :
    List Point → ℕ → ℕ → ℚ → ℕ
  | [], _, besti, _ => besti
  | p :: ps, i, besti, bestd =>
    if dist last p < bestd then nearestScan dist last ps (i + 1) i (dist last p)
    else nearestScan dist last ps (i + 1) besti bestd

/-- Index selected by the nearest-neighbour scan over a non-empty list (the
source initialises `minDistance` to `Infinity`, so the first point always
replaces it and the scan effectively starts from the head). -/
def nearestIndex (dist : Point → Point → ℚ) (last : Point) : List Point → ℕ
  | [] => 0
  | p :: ps => nearestScan dist last ps 1 0 (dist last p)

/-- Greedy consumption of the remaining points of `createOptimalRoute`; the
fuel starts at the length of the remaining list, which the loop consumes
completely. -/
def greedyConsume (dist : Point → Point → ℚ) :
    ℕ → Point → List Point → List Point
  | 0, _, _ => []
  | _, _, [] => []
  | fuel + 1, last, remaining =>
    let i := nearestIndex dist last remaining
    match remaining[i]? with
    | none => []
    | some nearest => nearest :: greedyConsume dist fuel nearest (remaining.eraseIdx i)

/-- Embedding of `createOptimalRoute`: starting from the cab location,
repeatedly append the nearest unvisited point among the new request's pickup
and dropoff followed by the existing passengers' pickups and dropoffs. -/
def createOptimalRoute (dist : Point → Point → ℚ) (currentPassengers : List Passenger)
    (newRequest : RideRequest) (cabLocation : Point) : List Point :=
  let remaining :=
    newRequest.pickupLocation :: newRequest.dropoffLocation ::
      (currentPassengers.map (fun p => p.pickupLocation) ++
        currentPassengers.map (fun p => p.dropoffLocation))
  cabLocation :: greedyConsume dist remaining.length cabLocation remaining

/-- Embedding of `calculateDeviationScore`: route length plus, for each
existing passenger, ten times the ratio of the route excess over the
passenger's direct distance, the denominator guarded by `|| 1` and the ratio
not clamped below at zero. -/
def calculateDeviationScore (dist : Point → Point → ℚ)
    (currentPassengers : List Passenger) (newRequest : RideRequest)
    (candidateRoute : List Point) : ℚ :=
  let baseDistance := calculateRouteDistance dist candidateRoute
  let detourPenalty := currentPassengers.foldl
    (fun acc passenger =>
      let directDistance := dist passenger.pickupLocation passenger.dropoffLocation
      let detourRatio := (baseDistance - directDistance) / jsOrNum directDistance 1
      acc + detourRatio * 10) 0
  baseDistance + detourPenalty

/-- Embedding of `calculateEstimatedTime`: minutes at 40 km/h. -/
def calculateEstimatedTime (dist : Point → Point → ℚ) (route : List Point) : ℚ :=
  calculateRouteDistance dist route / 40 * 60

/-- Match value produced by `findBestMatch`; `type` is the string the source
stores there (`"pooling"` or `"new_ride"`). -/
structure MatchResult where
  type : String
  cabId : ℕ
  activeRideId : Option ℕ
  route : List Point
  deviationScore : ℚ
  estimatedTime : ℚ
  deriving DecidableEq, Repr

/-- Normalisation applied to each aggregation row inside `findBestMatch`: the
joined ride counts only while its status is `'active'`. -/
def activeRideOf (cabData : CabData) : Option ActiveRide :=
  match cabData.activeRide with
  | some r => if r.status = RideStatus.active then some r else none
  | none => none

/-- Evaluation of one candidate row of the main loop of `findBestMatch`:
seat check, luggage check, candidate route, per-passenger detour check,
then the scored match; `none` when the candidate is skipped. -/
def candidateMatch (dist : Point → Point → ℚ) (newRequest : RideRequest)
    (cabData : CabData) : Option MatchResult :=
  let activeRide := activeRideOf cabData
  let currentPassengers :=
    match activeRide with
    | some r => r.passengers
    | none => []
  let availableSeats : ℤ := (cabData.cab.capacity : ℤ) - currentPassengers.length
  if availableSeats ≤ 0 then none
  else if ¬ checkLuggageConstraint currentPassengers newRequest.luggageCount
      cabData.cab.capacity = true then none
  else
    let candidateRoute :=
      createOptimalRoute dist currentPassengers newRequest cabData.cab.currentLocation
    let validDetour :=
      match activeRide with
      | none => true
      | some _ =>
        let originalRoutePoints :=
          cabData.cab.currentLocation ::
            (currentPassengers.map (fun p => p.pickupLocation) ++
              currentPassengers.map (fun p => p.dropoffLocation))
        currentPassengers.all (fun p =>
          checkDetourTolerance dist p newRequest originalRoutePoints candidateRoute)
    if ¬ validDetour = true then none
    else
      some {
        type := match activeRide with | some _ => "pooling" | none => "new_ride"
        cabId := cabData.cab.id
        activeRideId := activeRide.map (fun r => r.id)
        route := candidateRoute
        deviationScore :=
          calculateDeviationScore dist currentPassengers newRequest candidateRoute
        estimatedTime := calculateEstimatedTime dist candidateRoute }

/-- Best-so-far update of the main loop: a candidate replaces the tracked
best only when its deviation score is strictly smaller (`bestScore` starts at
`Infinity`, so the first candidate always wins; ties keep the earlier one). -/
def betterOf (best : Option MatchResult) (m : MatchResult) : Option MatchResult :=
  match best with
  | none => some m
  | some b => if m.deviationScore < b.deviationScore then some m else some b

/-- One iteration of the main scoring loop: skipped candidates keep the
tracked best, scored candidates go through the best-so-far comparison. -/
def scanStep (dist : Point → Point → ℚ) (newRequest : RideRequest)
    (best : Option MatchResult) (cabData : CabData) : Option MatchResult :=
  match candidateMatch dist newRequest cabData with
  | none => best
  | some m => betterOf best m

/-- Main scoring loop of `findBestMatch` over the nearby-cab rows. -/
def scanCandidates (dist : Point → Point → ℚ) (newRequest : RideRequest)
    (nearbyCabs : List CabData) : Option MatchResult :=
  nearbyCabs.foldl (scanStep dist newRequest) none

/-- Fallback branch of `findBestMatch`: the first row with free seats is
returned as a `new_ride` match with no ride id and with the bare route
distance as its score. -/
def fallbackMatch (dist : Point → Point → ℚ) (newRequest : RideRequest) :
    List CabData → Option MatchResult
  | [] => none
  | cabData :: rest =>
    let activeRide := activeRideOf cabData
    let currentPassengers :=
      match activeRide with
      | some r => r.passengers
      | none => []
    let availableSeats : ℤ := (cabData.cab.capacity : ℤ) - currentPassengers.length
    if availableSeats > 0 then
      let candidateRoute :=
        createOptimalRoute dist currentPassengers newRequest cabData.cab.currentLocation
      some {
        type := "new_ride"
        cabId := cabData.cab.id
        activeRideId := none
        route := candidateRoute
        deviationScore := calculateRouteDistance dist candidateRoute
        estimatedTime := calculateEstimatedTime dist candidateRoute }
    else fallbackMatch dist newRequest rest

/-- Embedding of `findBestMatch` on an aggregation result: the scored main
loop, then, when it produced nothing and rows exist, the fallback. -/
def findBestMatch (dist : Point → Point → ℚ) (newRequest : RideRequest)
    (nearbyCabs : List CabData) : Option MatchResult :=
  match scanCandidates dist newRequest nearbyCabs with
  | some m => some m
  | none =>
    if nearbyCabs.length > 0 then fallbackMatch dist newRequest nearbyCabs
    else none

/-- Absolute value of a rational by sign test. -/
def absQ (x : ℚ) : ℚ :=
  if x < 0 then -x else x

/-- Executable instantiation of the abstract distance parameter used by
concrete evaluations (the source's haversine is transcendental; any
point-to-point distance function fits the parameter). -/
def taxiDist (a b : Point) : ℚ :=
  absQ (a.lon - b.lon) + absQ (a.lat - b.lat)

/-! Pricing service (`services/pricingService.js`).  The surge multiplier is
computed from fleet-wide aggregate counts read from the database; it enters
the embedding as a parameter of `calculateDynamicPrice`. -/

/-- Pricing constant `BASE_FARE` (5.00 USD). -/
def BASE_FARE : ℚ := 5

/-- Pricing constant `DISTANCE_RATE` (2.50 USD per kilometre). -/
def DISTANCE_RATE : ℚ := 5 / 2

/-- Pricing constant `POOL_DISCOUNT_RATE` (15% per passenger). -/
def POOL_DISCOUNT_RATE : ℚ := 3 / 20

/-- JavaScript `Math.round(x * 100) / 100`: round to two decimals, halves
towards positive infinity. -/
def round2 (x : ℚ) : ℚ :=
  ((round (x * 100) : ℤ) : ℚ) / 100

/-- Embedding of `calculatePoolDiscountFactor`: no discount for at most one
passenger, otherwise `max(1 - passengerCount * POOL_DISCOUNT_RATE, 0.5)`. -/
def calculatePoolDiscountFactor (passengerCount : ℕ) : ℚ :=
  if passengerCount ≤ 1 then 1
  else
    let discount := (passengerCount : ℚ) * POOL_DISCOUNT_RATE
    max (1 - discount) (1 / 2)

/-- Result of `calculateDynamicPrice` with its user-facing breakdown. -/
structure PricingResult where
  success : Bool
  price : ℚ
  baseFare : ℚ
  distanceCost : ℚ
  surgeMultiplier : ℚ
  poolDiscountFactor : ℚ
  passengerCount : ℕ
  deriving DecidableEq, Repr

/-- Embedding of `calculateDynamicPrice`:
`round2((BASE_FARE + distance * DISTANCE_RATE) * surge * poolDiscount)`,
with the surge multiplier supplied by the external aggregate-count query. -/
def calculateDynamicPrice (dist : Point → Point → ℚ) (surgeMultiplier : ℚ)
    (pickupLocation dropoffLocation : Point) (passengerCount : ℕ) : PricingResult :=
  let distance := dist pickupLocation dropoffLocation
  let distanceCost := distance * DISTANCE_RATE
  let poolDiscountFactor := calculatePoolDiscountFactor passengerCount
  let basePrice := BASE_FARE + distanceCost
  let surgePrice := basePrice * surgeMultiplier
  let finalPrice := surgePrice * poolDiscountFactor
  { success := true
    price := round2 finalPrice
    baseFare := BASE_FARE
    distanceCost := round2 distanceCost
    surgeMultiplier := round2 surgeMultiplier
    poolDiscountFactor := round2 poolDiscountFactor
    passengerCount := passengerCount }

/-! Booking controller (`controllers/rideController.js`). -/

/-- Result of one commit attempt inside the booking loop: the conditional
save succeeds, fails with a mongoose `VersionError` (caught and retried), or
fails with any other error (re-thrown out of the loop). -/
inductive AttemptOutcome where
  | success
  | versionConflict
  | otherError
  deriving DecidableEq, Repr

/-- Terminal state of the booking retry loop, carrying the number of commit
attempts that were made. -/
inductive BookingTerm where
  | committed (attempts : ℕ)
  | conflictNoRematch (attempts : ℕ)
  | thrown (attempts : ℕ)
  | exhausted (attempts : ℕ)
  deriving DecidableEq, Repr

/-- Controller constant `maxRetries`. -/
def maxRetries : ℕ := 3

/-- Body of `while (retryCount < maxRetries && !bookingResult)`: the fuel is
`maxRetries - retryCount`, `attempts` counts entered loop bodies.  A version
conflict re-runs the matching engine; when rematching still finds a match the
loop continues, otherwise the attempt ends with a 409 result. -/
def bookingLoopGo (attempt : ℕ → AttemptOutcome) (rematch : ℕ → Bool) :
    ℕ → ℕ → BookingTerm
  | 0, attempts => .exhausted attempts
  | fuel + 1, attempts =>
    match attempt attempts with
    | .success => .committed (attempts + 1)
    | .otherError => .thrown (attempts + 1)
    | .versionConflict =>
      if rematch attempts then bookingLoopGo attempt rematch fuel (attempts + 1)
      else .conflictNoRematch (attempts + 1)

/-- The booking retry loop entered with `retryCount = 0`. -/
def bookingLoop (attempt : ℕ → AttemptOutcome) (rematch : ℕ → Bool) : BookingTerm :=
  bookingLoopGo attempt rematch maxRetries 0

/-- Number of commit attempts a terminal state records. -/
def attemptsOf : BookingTerm → ℕ
  | .committed n => n
  | .conflictNoRematch n => n
  | .thrown n => n
  | .exhausted n => n

/-- HTTP status the controller sends for each terminal state: success paths
return 2xx, both conflict terminations return 409 ("Please try again"), a
re-thrown error reaches the generic 500 handler. -/
def httpStatusOf : BookingTerm → ℕ
  | .committed _ => 200
  | .conflictNoRematch _ => 409
  | .thrown _ => 500
  | .exhausted _ => 409

/-- Refresh step of the version-conflict catch block: the retained match
object receives the fresh match's `activeRideId`, `route` and
`estimatedTime`; its other fields keep their previous values. -/
def refreshMatchAfterConflict (bestMatch updatedMatch : MatchResult) : MatchResult :=
  { bestMatch with
      activeRideId := updatedMatch.activeRideId
      route := updatedMatch.route
      estimatedTime := updatedMatch.estimatedTime }

/-- Passenger sub-record the controller pushes on a commit: requester,
pickup, dropoff and luggage count only — no detour tolerance is stored. -/
def mkPassenger (userId : ℕ) (req : RideRequest) : Passenger :=
  { userId := userId
    pickupLocation := req.pickupLocation
    dropoffLocation := req.dropoffLocation
    luggageCount := req.luggageCount
    detourTolerance := none }

/-- Total luggage of a passenger list. -/
def luggageSum (passengers : List Passenger) : ℕ :=
  (passengers.map (fun p => p.luggageCount)).sum

/-- Active ride document built by the `new_ride` commit branch. -/
def newActiveRideFromMatch (rideId : ℕ) (userId : ℕ) (req : RideRequest)
    (m : MatchResult) (price : ℚ) : ActiveRide :=
  { id := rideId
    cabId := m.cabId
    passengers := [mkPassenger userId req]
    currentRoute := m.route
    status := RideStatus.active
    totalPrice := price }

/-! Active-ride store semantics.  The store is the list of `ActiveRide`
documents; a save of a new document is conditioned by the primary-key index
on `_id` and by the unique partial index on `cabId` scoped to
`status: 'active'` (the "circuit breaker" of `models/ActiveRide.js`). -/

/-- Whether some document in the store is an active ride of the given cab
(the population of the partial unique index for that key). -/
def hasActiveRideForCab (store : List ActiveRide) (cabId : ℕ) : Bool :=
  store.any (fun r => decide (r.cabId = cabId ∧ r.status = RideStatus.active))

/-- Insert of a new active-ride document: rejected (duplicate-key error
E11000) when the `_id` already exists or when the document falls into the
partial unique index and an active ride of the same cab is already there. -/
def saveNewActiveRide (store : List ActiveRide) (ride : ActiveRide) :
    Option (List ActiveRide) :=
  if store.any (fun r => decide (r.id = ride.id)) then none
  else if ride.status = RideStatus.active ∧ hasActiveRideForCab store ride.cabId = true then
    none
  else some (ride :: store)

/-- Update applied by the pooling commit branch: append the passenger, set
the route and the total price; `cabId` and `status` are untouched. -/
def addPassengerToRide (ride : ActiveRide) (p : Passenger) (newRoute : List Point)
    (newPrice : ℚ) : ActiveRide :=
  { ride with
      passengers := ride.passengers ++ [p]
      currentRoute := newRoute
      totalPrice := newPrice }

/-- Pooling commit of `bookRide`: look the target ride up by id, require it
active, require free seats against the cab capacity, then append the
passenger. -/
def poolCommit (store : List ActiveRide) (cabs : List Cab) (rideId : ℕ)
    (p : Passenger) (newRoute : List Point) (newPrice : ℚ) :
    Option (List ActiveRide) :=
  match store.find? (fun r => r.id == rideId) with
  | none => none
  | some activeRide =>
    if ¬ activeRide.status = RideStatus.active then none
    else
      match cabs.find? (fun c => c.id == activeRide.cabId) with
      | none => none
      | some cab =>
        if cab.capacity ≤ activeRide.passengers.length then none
        else
          some (store.map (fun r =>
            if r.id = rideId then addPassengerToRide activeRide p newRoute newPrice
            else r))

/-- Responses of the cancellation endpoint. -/
inductive CancelResp where
  | rideNotFound
  | rideNotActive
  | passengerNotFound
  | rideCancelled
  | passengerRemoved (remaining : ℕ) (newRoute : List Point)
  | serverError
  deriving DecidableEq, Repr

/-- Embedding of `calculateOptimalRouteForPassengers`: cab location followed
by each remaining passenger's pickup and dropoff in order. -/
def calculateOptimalRouteForPassengers (passengers : List Passenger)
    (cabLocation : Point) : List Point :=
  cabLocation ::
    passengers.foldl (fun acc p => acc ++ [p.pickupLocation, p.dropoffLocation]) []

/-- Embedding of `cancelRide`: find the ride, require it active, locate the
passenger by requester id (404 when absent), remove it; an emptied ride is
marked cancelled, otherwise the route is rebuilt from the cab location. -/
def cancelRide (store : List ActiveRide) (cabs : List Cab) (rideId userId : ℕ) :
    CancelResp × List ActiveRide :=
  match store.find? (fun r => r.id == rideId) with
  | none => (.rideNotFound, store)
  | some activeRide =>
    if ¬ activeRide.status = RideStatus.active then (.rideNotActive, store)
    else
      match activeRide.passengers.findIdx? (fun p => p.userId == userId) with
      | none => (.passengerNotFound, store)
      | some idx =>
        let remaining := activeRide.passengers.eraseIdx idx
        if remaining.length = 0 then
          let updated := { activeRide with
            passengers := remaining, status := RideStatus.cancelled }
          (.rideCancelled, store.map (fun r => if r.id = rideId then updated else r))
        else
          match cabs.find? (fun c => c.id == activeRide.cabId) with
          | none => (.serverError, store)
          | some cab =>
            let newRoute := calculateOptimalRouteForPassengers remaining cab.currentLocation
            let updated := { activeRide with
              passengers := remaining, currentRoute := newRoute }
            (.passengerRemoved remaining.length newRoute,
              store.map (fun r => if r.id = rideId then updated else r))

/-- States of the active-ride store reachable from the empty store through
the commit operations of the two controllers: inserting a new ride (guarded
by the indexes), a pooling commit, and a cancellation. -/
inductive Reachable : List ActiveRide → Prop where
  | init : Reachable []
  | newRide {s sNew : List ActiveRide} {r : ActiveRide} :
      Reachable s → saveNewActiveRide s r = some sNew → Reachable sNew
  | pool {s sNew : List ActiveRide} {cabs : List Cab} {rideId : ℕ} {p : Passenger}
      {newRoute : List Point} {newPrice : ℚ} :
      Reachable s → poolCommit s cabs rideId p newRoute newPrice = some sNew →
      Reachable sNew
  | cancel {s : List ActiveRide} {cabs : List Cab} {rideId userId : ℕ} :
      Reachable s → Reachable (cancelRide s cabs rideId userId).2

/-- Number of active rides of one cab in a store. -/
def countActiveRidesFor (store : List ActiveRide) (cabId : ℕ) : ℕ :=
  (store.filter (fun r => decide (r.cabId = cabId ∧ r.status = RideStatus.active))).length

/-- Combined store invariant: document ids are pairwise distinct (primary-key
index) and every cab owns at most one active ride (partial unique index). -/
def StoreInv (store : List ActiveRide) : Prop :=
  (store.map (fun r => r.id)).Nodup ∧ ∀ c, countActiveRidesFor store c ≤ 1

/-- Deviation-score formula as worded by the specification: route length
plus, per existing passenger, `10 * max(0, (routeLength - directDistance) /
directDistance)`.  Spec-side definition, kept for comparison against the
embedded `calculateDeviationScore`. -/
def specDeviationScore (dist : Point → Point → ℚ) (currentPassengers : List Passenger)
    (candidateRoute : List Point) : ℚ :=
  let base := calculateRouteDistance dist candidateRoute
  base + (currentPassengers.map (fun p =>
    10 * max 0 ((base - dist p.pickupLocation p.dropoffLocation) /
      dist p.pickupLocation p.dropoffLocation))).sum

/-! Concrete instances used to evaluate the engine on specific inputs. -/

/-- Idle cab of capacity 4 at the origin. -/
def cabIdle4 : Cab := { id := 1, capacity := 4, currentLocation := ⟨0, 0⟩ }

/-- Aggregation row for `cabIdle4` with no joined ride. -/
def cdIdle4 : CabData := { cab := cabIdle4, activeRide := none }

/-- Request carrying 10 pieces of luggage between coinciding points. -/
def reqBigLuggage : RideRequest :=
  { userId := 9, pickupLocation := ⟨0, 0⟩, dropoffLocation := ⟨0, 0⟩,
    detourTolerance := 5, luggageCount := 10 }

/-- Match the fallback branch produces for `reqBigLuggage` against
`cdIdle4`. -/
def matchBigLuggage : MatchResult :=
  { type := "new_ride", cabId := 1, activeRideId := none,
    route := [⟨0, 0⟩, ⟨0, 0⟩, ⟨0, 0⟩], deviationScore := 0, estimatedTime := 0 }

/-- Cab of capacity 2 at the origin, used by the detour scenarios. -/
def cabPool2 : Cab := { id := 2, capacity := 2, currentLocation := ⟨0, 0⟩ }

/-- Existing passenger riding along the equator-like axis from lon 1 to
lon 2. -/
def passAxis : Passenger :=
  { userId := 1, pickupLocation := ⟨1, 0⟩, dropoffLocation := ⟨2, 0⟩, luggageCount := 0 }

/-- Active ride of `cabPool2` carrying `passAxis`. -/
def rideAxis : ActiveRide :=
  { id := 7, cabId := 2, passengers := [passAxis],
    currentRoute := [⟨0, 0⟩, ⟨1, 0⟩, ⟨2, 0⟩], status := RideStatus.active, totalPrice := 0 }

/-- Aggregation row joining `cabPool2` with `rideAxis`. -/
def cdPool2 : CabData := { cab := cabPool2, activeRide := some rideAxis }

/-- Request with detour tolerance 0 whose pooling lengthens the route by a
nonzero amount. -/
def reqZeroTol : RideRequest :=
  { userId := 9, pickupLocation := ⟨1/2, 0⟩, dropoffLocation := ⟨3/2, 1⟩,
    detourTolerance := 0, luggageCount := 0 }

/-- Pooling match `findBestMatch` produces for `reqZeroTol` against
`cdPool2` under `taxiDist`. -/
def matchZeroTol : MatchResult :=
  { type := "pooling", cabId := 2, activeRideId := some 7,
    route := [⟨0, 0⟩, ⟨1/2, 0⟩, ⟨1, 0⟩, ⟨2, 0⟩, ⟨3/2, 1⟩],
    deviationScore := 57/2, estimatedTime := 21/4 }

/-- Idle cab of capacity 4 with id 3 (fallback scenario). -/
def cabTight : Cab := { id := 3, capacity := 4, currentLocation := ⟨0, 0⟩ }

/-- Idle cab with the same id and location but capacity 20 (clean-match
scenario). -/
def cabRoomy : Cab := { id := 3, capacity := 20, currentLocation := ⟨0, 0⟩ }

/-- Row for `cabTight`. -/
def cdTight : CabData := { cab := cabTight, activeRide := none }

/-- Row for `cabRoomy`. -/
def cdRoomy : CabData := { cab := cabRoomy, activeRide := none }

/-- Request with 10 pieces of luggage from lon 1 to lon 2. -/
def reqTen : RideRequest :=
  { userId := 9, pickupLocation := ⟨1, 0⟩, dropoffLocation := ⟨2, 0⟩,
    detourTolerance := 5, luggageCount := 10 }

/-- Match produced for `reqTen` both by the fallback on `cdTight` and by the
clean scoring loop on `cdRoomy`. -/
def matchTen : MatchResult :=
  { type := "new_ride", cabId := 3, activeRideId := none,
    route := [⟨0, 0⟩, ⟨1, 0⟩, ⟨2, 0⟩], deviationScore := 2, estimatedTime := 3 }

/-- Passenger whose pickup and dropoff coincide (direct distance 0). -/
def passDegenerate : Passenger :=
  { userId := 1, pickupLocation := ⟨0, 0⟩, dropoffLocation := ⟨0, 0⟩, luggageCount := 0 }

/-- Passenger from the origin to lon 1 (direct distance 1 under
`taxiDist`). -/
def passUnit : Passenger :=
  { userId := 1, pickupLocation := ⟨0, 0⟩, dropoffLocation := ⟨1, 0⟩, luggageCount := 0 }

/-- Existing passenger with luggage 1 between coinciding points. -/
def passLight : Passenger :=
  { userId := 1, pickupLocation := ⟨0, 0⟩, dropoffLocation := ⟨0, 0⟩, luggageCount := 1 }

/-- Active ride of `cabIdle4` carrying `passLight`. -/
def rideLight : ActiveRide :=
  { id := 11, cabId := 1, passengers := [passLight],
    currentRoute := [⟨0, 0⟩], status := RideStatus.active, totalPrice := 0 }

/-- Row joining `cabIdle4` with `rideLight`. -/
def cdLight : CabData := { cab := cabIdle4, activeRide := some rideLight }

/-- Request with luggage 1 between coinciding points (fast-path pooling). -/
def reqLight : RideRequest :=
  { userId := 8, pickupLocation := ⟨0, 0⟩, dropoffLocation := ⟨0, 0⟩,
    detourTolerance := 5, luggageCount := 1 }

/-- Pooling match produced for `reqLight` against `cdLight`. -/
def matchLight : MatchResult :=
  { type := "pooling", cabId := 1, activeRideId := some 11,
    route := [⟨0, 0⟩, ⟨0, 0⟩, ⟨0, 0⟩, ⟨0, 0⟩, ⟨0, 0⟩],
    deviationScore := 0, estimatedTime := 0 }

/-- Existing-passenger record whose longitudes agree with `reqLongitudes`
while every latitude differs and whose stored tolerance is 0. -/
def passSameLon : Passenger :=
  { userId := 1, pickupLocation := ⟨0, 5⟩, dropoffLocation := ⟨1, 7⟩,
    luggageCount := 0, detourTolerance := some 0 }

/-- Request sharing only the longitudes of `passSameLon`. -/
def reqSameLon : RideRequest :=
  { userId := 9, pickupLocation := ⟨0, 0⟩, dropoffLocation := ⟨1, 0⟩,
    detourTolerance := 5, luggageCount := 0 }

/-- Stale match retained across a version conflict. -/
def staleMatch : MatchResult :=
  { type := "pooling", cabId := 1, activeRideId := some 10,
    route := [⟨0, 0⟩], deviationScore := 4, estimatedTime := 6 }

/-- Fresh match computed by the rematching step. -/
def freshMatch : MatchResult :=
  { type := "new_ride", cabId := 2, activeRideId := none,
    route := [⟨1, 1⟩], deviationScore := 3, estimatedTime := 5 }

/-- Cab referenced by the cancellation scenario. -/
def cabCancel : Cab := { id := 1, capacity := 4, currentLocation := ⟨0, 0⟩ }

/-- Sole passenger of the cancellation scenario. -/
def passCancel : Passenger :=
  { userId := 7, pickupLocation := ⟨1, 0⟩, dropoffLocation := ⟨2, 0⟩, luggageCount := 0 }

/-- Active ride holding only `passCancel`. -/
def rideCancelOne : ActiveRide :=
  { id := 4, cabId := 1, passengers := [passCancel],
    currentRoute := [⟨0, 0⟩], status := RideStatus.active, totalPrice := 0 }

/-- Active ride with no passengers, used to seed reachability witnesses. -/
def rideSeed : ActiveRide :=
  { id := 1, cabId := 1, passengers := [], currentRoute := [],
    status := RideStatus.active, totalPrice := 0 }

/-- Attempt trace in which every commit hits a version conflict. -/
def allConflicts : ℕ → AttemptOutcome := fun _ => AttemptOutcome.versionConflict

/-- Rematch trace that always finds a fresh match. -/
def alwaysRematch : ℕ → Bool := fun _ => true

/-! Helper lemmas shared by the claim theorems. -/

/-- Left folds that accumulate `f` over a list compute the sum of the mapped
list. -/
theorem foldl_add_eq_sum {α M : Type*} [AddCommMonoid M] (f : α → M) :
    ∀ (l : List α) (a : M), l.foldl (fun acc x => acc + f x) a = a + (l.map f).sum
  | [], a => by simp
  | x :: xs, a => by
    rw [List.foldl_cons, foldl_add_eq_sum f xs (a + f x), List.map_cons, List.sum_cons]
    ac_rfl

/-! Claim theorems. -/

/-- C8: for every pickup point, dropoff point and passenger count, the
pricing quote returns `round2((baseFare + distance * distanceRate) * surge *
poolDiscountFactor)`, where the pool discount factor is 1 for at most one
passenger and `max(1 - passengerCount * 0.15, 0.5)` otherwise.  The surge
multiplier is the externally computed aggregate value. -/
theorem dynamic_price_formula (dist : Point → Point → ℚ) (surge : ℚ)
    (pickup dropoff : Point) (n : ℕ) :
    (calculateDynamicPrice dist surge pickup dropoff n).price =
      round2 ((BASE_FARE + dist pickup dropoff * DISTANCE_RATE) * surge *
        (if n ≤ 1 then 1 else max (1 - (n : ℚ) * 0.15) 0.5)) := by
  by_cases h : n ≤ 1 <;>
    simp [calculateDynamicPrice, calculatePoolDiscountFactor, POOL_DISCOUNT_RATE, h] <;>
    norm_num

/-- C10: the fast path of `checkDetourTolerance` passes whenever the two
pickup longitudes agree and the two dropoff longitudes agree; the latitude
components and the stored tolerance are never consulted. -/
theorem detour_fast_path_longitudes_only (dist : Point → Point → ℚ)
    (p : Passenger) (req : RideRequest) (originalRoute newRoute : List Point)
    (h1 : p.pickupLocation.lon = req.pickupLocation.lon)
    (h2 : p.dropoffLocation.lon = req.dropoffLocation.lon) :
    checkDetourTolerance dist p req originalRoute newRoute = true := by
  simp [checkDetourTolerance, h1, h2]

/-- Witness for `detour_fast_path_longitudes_only`: longitudes agree while
both latitudes differ, the stored tolerance is 0 and the new route is 100
units longer, yet the check passes. -/
theorem detour_fast_path_longitudes_only_witness :
    passSameLon.pickupLocation.lon = reqSameLon.pickupLocation.lon ∧
    passSameLon.dropoffLocation.lon = reqSameLon.dropoffLocation.lon ∧
    passSameLon.pickupLocation.lat ≠ reqSameLon.pickupLocation.lat ∧
    passSameLon.detourTolerance = some 0 ∧
    checkDetourTolerance taxiDist passSameLon reqSameLon []
      [⟨0, 0⟩, ⟨100, 0⟩] = true :=
  ⟨rfl, rfl, by decide, rfl,
    detour_fast_path_longitudes_only taxiDist passSameLon reqSameLon []
      [⟨0, 0⟩, ⟨100, 0⟩] rfl rfl⟩

/-- Attempt counts of the booking loop are bounded by the remaining fuel. -/
theorem bookingLoopGo_attempts_le (attempt : ℕ → AttemptOutcome) (rematch : ℕ → Bool) :
    ∀ (fuel a : ℕ), attemptsOf (bookingLoopGo attempt rematch fuel a) ≤ a + fuel
  | 0, a => by simp [bookingLoopGo, attemptsOf]
  | fuel + 1, a => by
    cases h : attempt a with
    | success => simp [bookingLoopGo, attemptsOf, h]
    | otherError => simp [bookingLoopGo, attemptsOf, h]
    | versionConflict =>
      by_cases hr : rematch a
      · have := bookingLoopGo_attempts_le attempt rematch fuel (a + 1)
        simp only [bookingLoopGo, h, hr, if_true]
        omega
      · simp [bookingLoopGo, attemptsOf, h, hr]

/-- C4: the conflict-retry loop of `bookRide` makes at most `maxRetries = 3`
commit attempts, and when every attempt fails with a version conflict (the
rematching step still finding matches) the booking terminates exhausted with
HTTP 409, the retryable "try again" response, not a fatal error. -/
theorem booking_retry_bounded (attempt : ℕ → AttemptOutcome) (rematch : ℕ → Bool) :
    attemptsOf (bookingLoop attempt rematch) ≤ maxRetries ∧
    ((∀ k, attempt k = AttemptOutcome.versionConflict) → (∀ k, rematch k = true) →
      bookingLoop attempt rematch = BookingTerm.exhausted 3 ∧
      httpStatusOf (bookingLoop attempt rematch) = 409 ∧
      httpStatusOf (bookingLoop attempt rematch) ≠ 500) := by
  refine ⟨?_, ?_⟩
  · have := bookingLoopGo_attempts_le attempt rematch maxRetries 0
    simpa [bookingLoop] using this
  · intro h1 h2
    have hterm : bookingLoop attempt rematch = BookingTerm.exhausted 3 := by
      simp [bookingLoop, maxRetries, bookingLoopGo, h1 0, h1 1, h1 2, h2 0, h2 1, h2 2]
    exact ⟨hterm, by rw [hterm]; rfl, by rw [hterm]; simp [httpStatusOf]⟩

/-- Witness for `booking_retry_bounded`: the all-conflict trace makes exactly
the bounded number of attempts and ends in the 409 exhausted state. -/
theorem booking_retry_bounded_witness :
    attemptsOf (bookingLoop allConflicts alwaysRematch) ≤ maxRetries ∧
    bookingLoop allConflicts alwaysRematch = BookingTerm.exhausted 3 ∧
    httpStatusOf (bookingLoop allConflicts alwaysRematch) = 409 :=
  ⟨(booking_retry_bounded allConflicts alwaysRematch).1,
   ((booking_retry_bounded allConflicts alwaysRematch).2 (fun _ => rfl) (fun _ => rfl)).1,
   ((booking_retry_bounded allConflicts alwaysRematch).2 (fun _ => rfl) (fun _ => rfl)).2.1⟩

/-- C3 (amended): the version-conflict refresh copies the fresh match's trip
id, route and estimated time onto the retained match object and keeps the
previously computed match type, vehicle id and deviation score; the price is
recomputed inside the following attempt. -/
theorem retry_refresh_fields (b u : MatchResult) :
    refreshMatchAfterConflict b u =
      { type := b.type, cabId := b.cabId, activeRideId := u.activeRideId,
        route := u.route, deviationScore := b.deviationScore,
        estimatedTime := u.estimatedTime } := rfl

/-- C3 counterexample: after a conflict against a fresh match of a different
type and vehicle, the refreshed match still carries the stale type
`"pooling"` and the stale vehicle id 1, refuting that every previously
computed match value is discarded. -/
theorem retry_refresh_stale_counterexample :
    staleMatch.type = "pooling" ∧ staleMatch.cabId = 1 ∧
    freshMatch.type = "new_ride" ∧ freshMatch.cabId = 2 ∧
    (refreshMatchAfterConflict staleMatch freshMatch).type = "pooling" ∧
    (refreshMatchAfterConflict staleMatch freshMatch).cabId = 1 ∧
    (refreshMatchAfterConflict staleMatch freshMatch).activeRideId =
      freshMatch.activeRideId ∧
    (refreshMatchAfterConflict staleMatch freshMatch).route = freshMatch.route := by
  decide

/-- C9 (amended): for an active trip, cancellation by a requester with no
passenger sub-record fails with `NotFound` and leaves the store unchanged. -/
theorem cancel_absent_passenger_not_found (store : List ActiveRide) (cabs : List Cab)
    (rideId userId : ℕ) (ride : ActiveRide)
    (hfind : store.find? (fun r => r.id == rideId) = some ride)
    (hactive : ride.status = RideStatus.active)
    (habsent : ride.passengers.findIdx? (fun p => p.userId == userId) = none) :
    cancelRide store cabs rideId userId = (CancelResp.passengerNotFound, store) := by
  simp [cancelRide, hfind, hactive, habsent]

/-- Witness for `cancel_absent_passenger_not_found`: requester 8 is not in
the single-passenger active ride, so the cancellation is a 404 and the store
is untouched. -/
theorem cancel_absent_passenger_not_found_witness :
    [rideCancelOne].find? (fun r => r.id == 4) = some rideCancelOne ∧
    rideCancelOne.status = RideStatus.active ∧
    rideCancelOne.passengers.findIdx? (fun p => p.userId == 8) = none ∧
    cancelRide [rideCancelOne] [cabCancel] 4 8 =
      (CancelResp.passengerNotFound, [rideCancelOne]) :=
  ⟨rfl, rfl, rfl,
    cancel_absent_passenger_not_found [rideCancelOne] [cabCancel] 4 8 rideCancelOne
      rfl rfl rfl⟩

/-- C9 counterexample: cancelling the sole passenger marks the trip
cancelled, and the second cancellation of the same requester then returns the
400 "not active" response, not `NotFound`. -/
theorem second_cancel_after_empty_counterexample :
    (cancelRide [rideCancelOne] [cabCancel] 4 7).1 = CancelResp.rideCancelled ∧
    cancelRide (cancelRide [rideCancelOne] [cabCancel] 4 7).2 [cabCancel] 4 7 =
      (CancelResp.rideNotActive, (cancelRide [rideCancelOne] [cabCancel] 4 7).2) ∧
    CancelResp.rideNotActive ≠ CancelResp.passengerNotFound := by
  decide

/-- Fallback results do not depend on the request's detour tolerance. -/
theorem fallbackMatch_tolerance (dist : Point → Point → ℚ) (req : RideRequest) (t : ℚ) :
    ∀ cabs : List CabData,
      fallbackMatch dist { req with detourTolerance := t } cabs =
        fallbackMatch dist req cabs
  | [] => rfl
  | _ :: rest => by
    simp only [fallbackMatch]
    split
    · rfl
    · exact fallbackMatch_tolerance dist req t rest

/-- C5 (amended): the matching result is entirely independent of the new
request's detour tolerance — the detour check consults only the stored
per-passenger tolerances (each absent or zero and hence defaulted to 5
minutes), so changing the request's tolerance changes nothing. -/
theorem match_ignores_request_detour_tolerance (dist : Point → Point → ℚ)
    (req : RideRequest) (t : ℚ) (nearbyCabs : List CabData) :
    findBestMatch dist { req with detourTolerance := t } nearbyCabs =
      findBestMatch dist req nearbyCabs := by
  have hscan : scanCandidates dist { req with detourTolerance := t } nearbyCabs =
      scanCandidates dist req nearbyCabs := rfl
  simp only [findBestMatch, hscan, fallbackMatch_tolerance]

/-- C5 counterexample: a request with detour tolerance 0 is matched as
pooling onto `rideAxis` although the pooled route is 3/2 longer than the
original route — the candidate is not rejected. -/
theorem zero_tolerance_request_pooled_counterexample :
    reqZeroTol.detourTolerance = 0 ∧
    findBestMatch taxiDist reqZeroTol [cdPool2] = some matchZeroTol ∧
    matchZeroTol.type = "pooling" ∧
    calculateRouteDistance taxiDist matchZeroTol.route -
      calculateRouteDistance taxiDist (cabPool2.currentLocation ::
        (rideAxis.passengers.map (fun p => p.pickupLocation) ++
          rideAxis.passengers.map (fun p => p.dropoffLocation))) = 3/2 ∧
    (0 : ℚ) < 3/2 := by
  with_unfolding_all decide

/-- C7 (amended): the deviation score is the candidate route length plus,
per existing passenger, ten times `(routeLength - directDistance)` divided by
the direct distance with a zero denominator replaced by 1 and with no
clamping at zero; whenever every direct distance is positive and bounded by
the route length (as holds for routes visiting each passenger's endpoints
under a metric distance), this agrees with the specification's
`max(0, ...)` formula. -/
theorem deviation_score_formula (dist : Point → Point → ℚ) (ps : List Passenger)
    (req : RideRequest) (route : List Point) :
    calculateDeviationScore dist ps req route =
      calculateRouteDistance dist route +
        (ps.map (fun p =>
          (calculateRouteDistance dist route - dist p.pickupLocation p.dropoffLocation) /
            jsOrNum (dist p.pickupLocation p.dropoffLocation) 1 * 10)).sum ∧
    ((∀ p ∈ ps, 0 < dist p.pickupLocation p.dropoffLocation ∧
        dist p.pickupLocation p.dropoffLocation ≤ calculateRouteDistance dist route) →
      calculateDeviationScore dist ps req route = specDeviationScore dist ps route) := by
  have hfold : calculateDeviationScore dist ps req route =
      calculateRouteDistance dist route +
        (ps.map (fun p =>
          (calculateRouteDistance dist route - dist p.pickupLocation p.dropoffLocation) /
            jsOrNum (dist p.pickupLocation p.dropoffLocation) 1 * 10)).sum := by
    unfold calculateDeviationScore
    dsimp only
    rw [foldl_add_eq_sum
      (fun p : Passenger =>
        (calculateRouteDistance dist route - dist p.pickupLocation p.dropoffLocation) /
          jsOrNum (dist p.pickupLocation p.dropoffLocation) 1 * 10) ps 0]
    rw [zero_add]
  refine ⟨hfold, ?_⟩
  intro h
  rw [hfold]
  unfold specDeviationScore
  congr 1
  apply congrArg
  apply List.map_congr_left
  intro p hp
  obtain ⟨hpos, hle⟩ := h p hp
  rw [jsOrNum, if_neg (ne_of_gt hpos)]
  rw [max_eq_right (div_nonneg (by linarith) hpos.le)]
  ring

/-- Witness for `deviation_score_formula`: for a passenger of direct
distance 1 on a route of length 1 both formulas give 1. -/
theorem deviation_score_formula_witness :
    (∀ p ∈ [passUnit], 0 < taxiDist p.pickupLocation p.dropoffLocation ∧
      taxiDist p.pickupLocation p.dropoffLocation ≤
        calculateRouteDistance taxiDist [⟨0, 0⟩, ⟨1, 0⟩]) ∧
    calculateDeviationScore taxiDist [passUnit] reqBigLuggage [⟨0, 0⟩, ⟨1, 0⟩] =
      specDeviationScore taxiDist [passUnit] [⟨0, 0⟩, ⟨1, 0⟩] :=
  ⟨by with_unfolding_all decide,
    (deviation_score_formula taxiDist [passUnit] reqBigLuggage [⟨0, 0⟩, ⟨1, 0⟩]).2
      (by with_unfolding_all decide)⟩

/-- C7 counterexample: for a passenger whose pickup and dropoff coincide the
direct distance is 0; the code divides by the `|| 1` fallback and scores 11
on a route of length 1, while the specification's formula (divided by the
direct distance itself) does not — the two formulas disagree. -/
theorem deviation_score_zero_direct_counterexample :
    taxiDist passDegenerate.pickupLocation passDegenerate.dropoffLocation = 0 ∧
    calculateDeviationScore taxiDist [passDegenerate] reqBigLuggage
      [⟨0, 0⟩, ⟨1, 0⟩] = 11 ∧
    specDeviationScore taxiDist [passDegenerate] [⟨0, 0⟩, ⟨1, 0⟩] = 1 ∧
    calculateDeviationScore taxiDist [passDegenerate] reqBigLuggage
      [⟨0, 0⟩, ⟨1, 0⟩] ≠
      specDeviationScore taxiDist [passDegenerate] [⟨0, 0⟩, ⟨1, 0⟩] := by
  with_unfolding_all decide

/-- Every match the fallback branch produces is a `new_ride` with no trip
id. -/
theorem fallbackMatch_new_ride (dist : Point → Point → ℚ) (req : RideRequest) :
    ∀ (cabs : List CabData) (m : MatchResult),
      fallbackMatch dist req cabs = some m →
        m.type = "new_ride" ∧ m.activeRideId = none
  | [], m => by simp [fallbackMatch]
  | _ :: rest, m => by
    simp only [fallbackMatch]
    split
    · intro h
      cases h
      exact ⟨rfl, rfl⟩
    · exact fallbackMatch_new_ride dist req rest m

/-- C6 (amended): when the scoring loop rejects every candidate,
`findBestMatch` degrades to the fallback — the first row with free seats —
and every fallback result has type `"new_ride"` with no trip id: the same
shape a clean constraint-satisfying idle-cab match has, with no distinct
`fallback_match` variant exposed to the caller. -/
theorem fallback_new_ride_outcome (dist : Point → Point → ℚ) (req : RideRequest)
    (cabs : List CabData) (h : scanCandidates dist req cabs = none) :
    findBestMatch dist req cabs = fallbackMatch dist req cabs ∧
    ∀ m, fallbackMatch dist req cabs = some m →
      m.type = "new_ride" ∧ m.activeRideId = none := by
  refine ⟨?_, fun m => fallbackMatch_new_ride dist req cabs m⟩
  cases cabs with
  | nil => simp [findBestMatch, fallbackMatch, h]
  | cons c cs => simp [findBestMatch, h]

/-- Witness for `fallback_new_ride_outcome`: on the luggage-overflow row the
scoring loop yields nothing and `findBestMatch` returns the fallback. -/
theorem fallback_new_ride_outcome_witness :
    scanCandidates taxiDist reqTen [cdTight] = none ∧
    findBestMatch taxiDist reqTen [cdTight] = fallbackMatch taxiDist reqTen [cdTight] ∧
    (fallbackMatch taxiDist reqTen [cdTight] = some matchTen →
      matchTen.type = "new_ride" ∧ matchTen.activeRideId = none) :=
  ⟨by with_unfolding_all decide,
   (fallback_new_ride_outcome taxiDist reqTen [cdTight] (by with_unfolding_all decide)).1,
   fun h =>
     (fallback_new_ride_outcome taxiDist reqTen [cdTight]
       (by with_unfolding_all decide)).2 matchTen h⟩

/-- C6 counterexample: the fallback on the capacity-4 row (whose luggage
check fails) and the clean scoring loop on the capacity-20 row return the
very same match value `matchTen` of type `"new_ride"` — the fallback carries
no distinct `fallback_match` variant and the caller cannot distinguish the
two outcomes. -/
theorem fallback_not_distinguishable_counterexample :
    scanCandidates taxiDist reqTen [cdTight] = none ∧
    findBestMatch taxiDist reqTen [cdTight] = some matchTen ∧
    scanCandidates taxiDist reqTen [cdRoomy] = some matchTen ∧
    findBestMatch taxiDist reqTen [cdRoomy] = some matchTen ∧
    matchTen.type = "new_ride" ∧
    matchTen.type ≠ "fallback_match" := by
  with_unfolding_all decide

/-- The best-so-far comparison returns either the new candidate or the old
accumulator. -/
theorem betterOf_some (best : Option MatchResult) (m r : MatchResult)
    (h : betterOf best m = some r) : r = m ∨ best = some r := by
  cases best with
  | none =>
    simp only [betterOf] at h
    exact Or.inl (Option.some.inj h).symm
  | some b =>
    simp only [betterOf] at h
    split at h
    · exact Or.inl (Option.some.inj h).symm
    · exact Or.inr h

/-- A step of the scoring loop that yields a match either keeps the
accumulator or took it from the candidate evaluation. -/
theorem scanStep_some (dist : Point → Point → ℚ) (req : RideRequest)
    (acc : Option MatchResult) (cd : CabData) (m : MatchResult)
    (h : scanStep dist req acc cd = some m) :
    acc = some m ∨ candidateMatch dist req cd = some m := by
  unfold scanStep at h
  cases hc : candidateMatch dist req cd with
  | none => rw [hc] at h; exact Or.inl h
  | some c =>
    rw [hc] at h
    dsimp only at h
    rcases betterOf_some acc c m h with rfl | hacc
    · exact Or.inr rfl
    · exact Or.inl hacc

/-- A match produced by the scoring fold came from the accumulator or from
one of the scanned rows. -/
theorem scanFold_some (dist : Point → Point → ℚ) (req : RideRequest) :
    ∀ (cabs : List CabData) (acc : Option MatchResult) (m : MatchResult),
      cabs.foldl (scanStep dist req) acc = some m →
      acc = some m ∨ ∃ cd ∈ cabs, candidateMatch dist req cd = some m
  | [], acc, m => fun h => Or.inl h
  | cd :: rest, acc, m => fun h => by
    rw [List.foldl_cons] at h
    rcases scanFold_some dist req rest (scanStep dist req acc cd) m h with hacc | ⟨cd2, hmem, hcm⟩
    · rcases scanStep_some dist req acc cd m hacc with hacc2 | hcand
      · exact Or.inl hacc2
      · exact Or.inr ⟨cd, List.mem_cons_self cd rest, hcand⟩
    · exact Or.inr ⟨cd2, List.mem_cons_of_mem cd hmem, hcm⟩

/-- A match produced by the scoring loop came from one of the rows. -/
theorem scanCandidates_some_mem (dist : Point → Point → ℚ) (req : RideRequest)
    (cabs : List CabData) (m : MatchResult)
    (h : scanCandidates dist req cabs = some m) :
    ∃ cd ∈ cabs, candidateMatch dist req cd = some m := by
  rcases scanFold_some dist req cabs none m h with hacc | hmem
  · cases hacc
  · exact hmem

/-- The normalised joined ride of a row is the stored ride, and it is
active. -/
theorem activeRideOf_eq_some (cd : CabData) (r : ActiveRide)
    (h : activeRideOf cd = some r) :
    cd.activeRide = some r ∧ r.status = RideStatus.active := by
  unfold activeRideOf at h
  cases hcd : cd.activeRide with
  | none => rw [hcd] at h; cases h
  | some r0 =>
    rw [hcd] at h
    dsimp only at h
    by_cases hst : r0.status = RideStatus.active
    · rw [if_pos hst] at h
      cases h
      exact ⟨rfl, hst⟩
    · rw [if_neg hst] at h
      cases h

/-- A pooling match returned by the candidate evaluation certifies that the
row's joined ride is active, is the match's target, and passed the luggage
check. -/
theorem candidateMatch_pooling (dist : Point → Point → ℚ) (req : RideRequest)
    (cd : CabData) (m : MatchResult)
    (h : candidateMatch dist req cd = some m) (ht : m.type = "pooling") :
    ∃ r, cd.activeRide = some r ∧ r.status = RideStatus.active ∧
      m.activeRideId = some r.id ∧
      checkLuggageConstraint r.passengers req.luggageCount cd.cab.capacity = true := by
  unfold candidateMatch at h
  cases har : activeRideOf cd with
  | none =>
    rw [har] at h
    dsimp only at h
    split_ifs at h
    cases h
    exact absurd (show ("new_ride" : String) = "pooling" from ht) (by decide)
  | some r =>
    rw [har] at h
    dsimp only at h
    split_ifs at h with h1 h2 h3
    cases h
    refine ⟨r, (activeRideOf_eq_some cd r har).1, (activeRideOf_eq_some cd r har).2,
      rfl, ?_⟩
    simpa using h2

/-- C2 (amended): every pooling match committed by `bookRide` keeps the
luggage invariant — appending the request's passenger to the matched active
ride leaves the luggage sum within the cab capacity, because the scoring
loop only emits pooling matches whose row passed `checkLuggageConstraint`
(the fallback, which bypasses the check, only ever emits `new_ride`
matches, and those can violate the invariant). -/
theorem pooling_match_respects_luggage (dist : Point → Point → ℚ)
    (req : RideRequest) (cabs : List CabData) (m : MatchResult)
    (h : findBestMatch dist req cabs = some m) (ht : m.type = "pooling") :
    ∃ cd ∈ cabs, ∃ r, cd.activeRide = some r ∧ r.status = RideStatus.active ∧
      m.activeRideId = some r.id ∧
      ∀ (newRoute : List Point) (newPrice : ℚ),
        luggageSum ((addPassengerToRide r (mkPassenger req.userId req) newRoute
          newPrice).passengers) ≤ cd.cab.capacity := by
  unfold findBestMatch at h
  cases hscan : scanCandidates dist req cabs with
  | some m0 =>
    rw [hscan] at h
    have hm := Option.some.inj h
    subst hm
    obtain ⟨cd, hmem, hcand⟩ := scanCandidates_some_mem dist req cabs m0 hscan
    obtain ⟨r, hride, hstatus, hid, hlug⟩ := candidateMatch_pooling dist req cd m0 hcand ht
    refine ⟨cd, hmem, r, hride, hstatus, hid, fun newRoute newPrice => ?_⟩
    have hsum : luggageSum r.passengers + req.luggageCount ≤ cd.cab.capacity := by
      unfold checkLuggageConstraint at hlug
      have := of_decide_eq_true hlug
      rwa [foldl_add_eq_sum (fun p : Passenger => p.luggageCount) r.passengers 0,
        zero_add] at this
    have hexp : luggageSum ((addPassengerToRide r (mkPassenger req.userId req)
        newRoute newPrice).passengers) = luggageSum r.passengers + req.luggageCount := by
      simp [addPassengerToRide, luggageSum, mkPassenger]
    rw [hexp]
    exact hsum
  | none =>
    rw [hscan] at h
    split_ifs at h with hlen
    have hfb := fallbackMatch_new_ride dist req cabs m h
    rw [hfb.1] at ht
    exact absurd ht (by decide)

/-- Witness for `pooling_match_respects_luggage`: the fast-path pooling
match onto `rideLight` satisfies the certified luggage bound. -/
theorem pooling_match_respects_luggage_witness :
    findBestMatch taxiDist reqLight [cdLight] = some matchLight ∧
    (∃ cd ∈ [cdLight], ∃ r, cd.activeRide = some r ∧
      r.status = RideStatus.active ∧
      matchLight.activeRideId = some r.id ∧
      ∀ (newRoute : List Point) (newPrice : ℚ),
        luggageSum ((addPassengerToRide r (mkPassenger reqLight.userId reqLight)
          newRoute newPrice).passengers) ≤ cd.cab.capacity) :=
  ⟨by with_unfolding_all decide,
   pooling_match_respects_luggage taxiDist reqLight [cdLight] matchLight
     (by with_unfolding_all decide) rfl⟩

/-- C2 counterexample: the luggage check rejects the only cab, yet the
fallback matches it as a `new_ride`; the commit inserts an active ride whose
luggage sum 10 exceeds the cab capacity 4, violating the invariant after a
successful mutation. -/
theorem fallback_luggage_violation_counterexample :
    checkLuggageConstraint [] reqBigLuggage.luggageCount cabIdle4.capacity = false ∧
    findBestMatch taxiDist reqBigLuggage [cdIdle4] = some matchBigLuggage ∧
    saveNewActiveRide []
      (newActiveRideFromMatch 1 reqBigLuggage.userId reqBigLuggage matchBigLuggage 0) =
      some [newActiveRideFromMatch 1 reqBigLuggage.userId reqBigLuggage matchBigLuggage 0] ∧
    cabIdle4.capacity <
      luggageSum (newActiveRideFromMatch 1 reqBigLuggage.userId reqBigLuggage
        matchBigLuggage 0).passengers := by
  with_unfolding_all decide

/-- Active-ride count of a cab over a cons cell. -/
theorem countActiveRidesFor_cons (r : ActiveRide) (s : List ActiveRide) (c : ℕ) :
    countActiveRidesFor (r :: s) c =
      (if r.cabId = c ∧ r.status = RideStatus.active then 1 else 0) +
        countActiveRidesFor s c := by
  by_cases hcond : r.cabId = c ∧ r.status = RideStatus.active
  · simp [countActiveRidesFor, List.filter_cons, hcond, Nat.add_comm]
  · simp [countActiveRidesFor, List.filter_cons, hcond]

/-- A cab outside the partial-index population has no active rides. -/
theorem hasActive_false_count_zero (s : List ActiveRide) (c : ℕ)
    (h : hasActiveRideForCab s c = false) : countActiveRidesFor s c = 0 := by
  unfold hasActiveRideForCab at h
  rw [List.any_eq_false] at h
  unfold countActiveRidesFor
  rw [List.length_eq_zero, List.filter_eq_nil_iff]
  intro a ha
  exact h a ha

/-- Pointwise cab-and-status preserving maps cannot increase the active-ride
count of any cab. -/
theorem countActive_map_le (f : ActiveRide → ActiveRide) (c : ℕ) :
    ∀ s : List ActiveRide,
      (∀ r ∈ s, (f r).cabId = r.cabId ∧
        ((f r).status = RideStatus.active → r.status = RideStatus.active)) →
      countActiveRidesFor (s.map f) c ≤ countActiveRidesFor s c
  | [] => fun _ => Nat.le_refl _
  | r :: rest => fun h => by
    rw [List.map_cons, countActiveRidesFor_cons, countActiveRidesFor_cons]
    have hr := h r (List.mem_cons_self r rest)
    have hrest := countActive_map_le f c rest (fun x hx => h x (List.mem_cons_of_mem r hx))
    by_cases hfr : (f r).cabId = c ∧ (f r).status = RideStatus.active
    · have hrc : r.cabId = c ∧ r.status = RideStatus.active :=
        ⟨hr.1.symm.trans hfr.1, hr.2 hfr.2⟩
      rw [if_pos hfr, if_pos hrc]
      omega
    · rw [if_neg hfr]
      by_cases hrc : r.cabId = c ∧ r.status = RideStatus.active
      · rw [if_pos hrc]; omega
      · rw [if_neg hrc]; omega

/-- A by-id update whose replacement keeps the target id leaves the list of
document ids unchanged. -/
theorem ids_of_update (s : List ActiveRide) (rideId : ℕ) (updated : ActiveRide)
    (hid : updated.id = rideId) :
    (s.map (fun r => if r.id = rideId then updated else r)).map (fun r => r.id) =
      s.map (fun r => r.id) := by
  rw [List.map_map]
  apply List.map_congr_left
  intro a _
  by_cases ha : a.id = rideId
  · simp [Function.comp, ha, hid]
  · simp [Function.comp, ha]

/-- The document a `find?`-by-id lookup returns carries the looked-up id. -/
theorem find?_id_eq (s : List ActiveRide) (rideId : ℕ) (r : ActiveRide)
    (h : s.find? (fun x => x.id == rideId) = some r) : r.id = rideId := by
  have := List.find?_some h
  simpa using this

/-- A by-id update of a found document preserves the store invariant as long
as the replacement keeps the id and the cab and does not newly activate the
ride. -/
theorem storeInv_update (s : List ActiveRide) (rideId : ℕ) (found updated : ActiveRide)
    (hfind : s.find? (fun x => x.id == rideId) = some found)
    (hinv : StoreInv s)
    (hid2 : updated.id = found.id)
    (hcab : updated.cabId = found.cabId)
    (hstat : updated.status = RideStatus.active → found.status = RideStatus.active) :
    StoreInv (s.map (fun r => if r.id = rideId then updated else r)) := by
  obtain ⟨hnodup, hcount⟩ := hinv
  have hfid : found.id = rideId := find?_id_eq s rideId found hfind
  have hmem : found ∈ s := List.mem_of_find?_eq_some hfind
  constructor
  · rw [ids_of_update s rideId updated (by rw [hid2, hfid])]
    exact hnodup
  · intro c
    refine Nat.le_trans (countActive_map_le _ c s ?_) (hcount c)
    intro r hr
    by_cases hrid : r.id = rideId
    · have hre : r = found :=
        List.inj_on_of_nodup_map hnodup hr hmem (by rw [hrid, hfid])
      subst hre
      rw [if_pos hrid]
      exact ⟨hcab, hstat⟩
    · rw [if_neg hrid]
      exact ⟨rfl, fun hx => hx⟩

/-- Every store reachable through the commit operations satisfies the
combined id-uniqueness and single-active-ride invariant. -/
theorem reachable_storeInv : ∀ {s : List ActiveRide}, Reachable s → StoreInv s := by
  intro s h
  induction h with
  | init =>
    exact ⟨List.nodup_nil, fun c => by simp [countActiveRidesFor]⟩
  | newRide hreach hsave ih =>
    rename_i s0 sNew r
    unfold saveNewActiveRide at hsave
    split_ifs at hsave with hid hact
    cases hsave
    obtain ⟨hnodup, hcount⟩ := ih
    constructor
    · rw [List.map_cons]
      refine List.nodup_cons.mpr ⟨?_, hnodup⟩
      intro hmem
      obtain ⟨x, hx, hxid⟩ := List.mem_map.mp hmem
      exact hid (List.any_eq_true.mpr ⟨x, hx, by simpa using hxid⟩)
    · intro c
      rw [countActiveRidesFor_cons]
      by_cases hrc : r.cabId = c ∧ r.status = RideStatus.active
      · have hhas : hasActiveRideForCab s0 r.cabId = false := by
          cases hcase : hasActiveRideForCab s0 r.cabId with
          | false => rfl
          | true => exact absurd ⟨hrc.2, hcase⟩ hact
        have h0 : countActiveRidesFor s0 r.cabId = 0 :=
          hasActive_false_count_zero s0 r.cabId hhas
        rw [hrc.1] at h0
        rw [if_pos hrc, h0]
      · rw [if_neg hrc]
        simpa using hcount c
  | pool hreach hpc ih =>
    rename_i s0 sNew cabs rideId p newRoute newPrice
    unfold poolCommit at hpc
    cases hfind : s0.find? (fun x => x.id == rideId) with
    | none => rw [hfind] at hpc; cases hpc
    | some found =>
      rw [hfind] at hpc
      dsimp only at hpc
      split_ifs at hpc with h1
      cases hfindc : cabs.find? (fun c => c.id == found.cabId) with
      | none => rw [hfindc] at hpc; cases hpc
      | some cab =>
        rw [hfindc] at hpc
        dsimp only at hpc
        split_ifs at hpc with h2
        cases hpc
        exact storeInv_update s0 rideId found
          (addPassengerToRide found p newRoute newPrice) hfind ih rfl rfl (fun hx => hx)
  | cancel hreach ih =>
    rename_i s0 cabs rideId userId
    unfold cancelRide
    cases hfind : s0.find? (fun x => x.id == rideId) with
    | none => exact ih
    | some found =>
      dsimp only
      by_cases h1 : found.status = RideStatus.active
      · rw [if_neg (not_not_intro h1)]
        cases hidx : found.passengers.findIdx? (fun p => p.userId == userId) with
        | none => exact ih
        | some idx =>
          dsimp only
          by_cases h2 : (found.passengers.eraseIdx idx).length = 0
          · rw [if_pos h2]
            refine storeInv_update s0 rideId found
              ({ found with
                  passengers := found.passengers.eraseIdx idx
                  status := RideStatus.cancelled }) hfind ih rfl rfl ?_
            intro hx
            exact absurd (show RideStatus.cancelled = RideStatus.active from hx)
              (by decide)
          · rw [if_neg h2]
            cases hfindc : cabs.find? (fun c => c.id == found.cabId) with
            | none => exact ih
            | some cab =>
              dsimp only
              exact storeInv_update s0 rideId found
                ({ found with
                    passengers := found.passengers.eraseIdx idx
                    currentRoute := calculateOptimalRouteForPassengers
                      (found.passengers.eraseIdx idx) cab.currentLocation }) hfind ih
                rfl rfl (fun hx => hx)
      · rw [if_pos h1]
        exact ih

/-- C1: in every reachable store state, each cab is referenced by at most
one active ride — insertion is guarded by the unique partial index, pooling
never changes a ride's cab or status, and cancellation only deactivates. -/
theorem cab_owns_at_most_one_active_ride (s : List ActiveRide) (h : Reachable s)
    (c : ℕ) : countActiveRidesFor s c ≤ 1 :=
  (reachable_storeInv h).2 c

/-- Witness for `cab_owns_at_most_one_active_ride`: the store obtained by
committing one new active ride satisfies the bound for its cab. -/
theorem cab_owns_at_most_one_active_ride_witness :
    saveNewActiveRide [] rideSeed = some [rideSeed] ∧
    countActiveRidesFor [rideSeed] 1 ≤ 1 :=
  ⟨by decide,
   cab_owns_at_most_one_active_ride [rideSeed]
     (Reachable.newRide Reachable.init
       (by decide : saveNewActiveRide [] rideSeed = some [rideSeed])) 1⟩

end RidePooling
